import Mathlib

/-!
Shallow embedding of the metastore-migration core of the repository
(databricks_migrate/migrations/hive.py and clusters.py), together with
theorems settling the specification claims about it.  Machine-level I/O
(REST calls, files, sleeps) is modelled by explicit oracles (response
streams, per-table result functions, directory listings) and by explicit
event / outcome records listing the writes the code performs.
-/

namespace Migrate

/-! ### Pagination / batch iterator (log_all_databases, log_all_tables)

Both crawlers compute
  batch_size = 100
  num_of_buckets = (count // batch_size) + 1
and then issue one remote slice-and-print statement per bucket m with the
half-open index range [batch_size*m, batch_size*(m+1)).
-/

/-- Fixed batch size used to slice the database and table listings. -/
def batch_size : Nat := 100

/-- Number of slices of the list to take:
the source computes (count floor-divided by batch_size) plus one. -/
def num_of_buckets (n : Nat) : Nat := n / batch_size + 1

/-- The half-open index range of the m-th slice statement. -/
def slice_range (m : Nat) : Nat × Nat := (batch_size * m, batch_size * (m + 1))

/-- The list of slice ranges issued for a listing with n elements. -/
def batch_slices (n : Nat) : List (Nat × Nat) :=
  (List.range (num_of_buckets n)).map slice_range

/-! ### The retry trigger in export_hive_metastore (claim C3)

After the crawl, export_hive_metastore computes the number of lines of the
failure log and then tests only (not is_skip_failed()) and is_aws() before
invoking retry_failed_metastore_export; the failed-entry count is computed
but never consulted by the condition.
-/

/-- The gate in export_hive_metastore deciding whether
retry_failed_metastore_export is invoked.  The third argument is the
failed-entry count the source computes just above the test; the source's
condition does not read it. -/
def export_retry_triggered (skip_failed is_aws : Bool)
    (total_failed_entries : Nat) : Bool :=
  (!skip_failed) && is_aws

/-! ### Command executor (submit_command, clusters.py)

submit_command posts the command, reads the optional id of the execute
response, logs an error when the id is missing (and nothing else: control
falls through), then polls the status endpoint until the status string is
neither Running nor Queued, finally logging the summary when the terminal
results dict is tagged error and returning that dict to the caller.
-/

/-- A command results payload: the resultType tag together with the data and
summary fields read from it by the callers. -/
structure CmdResult where
  resultType : String
  data : String
  summary : String
deriving DecidableEq, Repr

/-- One response of the command status endpoint. -/
structure StatusResp where
  status : String
  results : CmdResult
deriving DecidableEq, Repr

/-- The polling condition of submit_command: it keeps polling while the
status is Running or Queued. -/
def still_running (s : String) : Bool := s == "Running" || s == "Queued"

/-- The first status response that stops the polling loop of submit_command;
none when every response keeps it polling (the source loop would then never
return). -/
def first_terminal : List StatusResp → Option StatusResp
  | [] => none
  | r :: rs => if still_running r.status then first_terminal rs else some r

/-- Observable outcome of one submit_command call: whether an exception was
raised, whether the missing-command-id error line was logged, whether the
status endpoint was polled, whether a terminal error summary was logged, and
the results dict handed back to the caller (none when polling never reaches a
terminal status). -/
structure SubmitOutcome where
  raisedException : Bool
  loggedMissingId : Bool
  polledStatus : Bool
  loggedErrorSummary : Bool
  returned : Option CmdResult
deriving DecidableEq, Repr

/-- submit_command over the remote oracle: com_id is the optional id field of
the execute response, polls the successive status responses. -/
def submit_command (com_id : Option String) (polls : List StatusResp) :
    SubmitOutcome :=
  let missing := com_id.isNone
  match first_terminal polls with
  | none =>
    { raisedException := false, loggedMissingId := missing,
      polledStatus := true, loggedErrorSummary := false, returned := none }
  | some r =>
    { raisedException := false, loggedMissingId := missing,
      polledStatus := true,
      loggedErrorSummary := r.results.resultType == "error",
      returned := some r.results }

/-! ### Metastore crawler: per-table DDL extraction (log_all_tables)

For each enumerated table name the crawler submits a
show-create-table statement, then opens the per-table DDL file for writing
(creating or truncating it) before inspecting the result type: a text result
is written to the file, any other result leaves the file empty and appends a
json record carrying the key db.table to the failure log.
-/

/-- Local path of one table's DDL file,
export_dir ++ ms_dir ++ db_name ++ "/" ++ table_name. -/
def table_file_path (export_dir ms_dir db_name table_name : String) : String :=
  export_dir ++ ms_dir ++ db_name ++ "/" ++ table_name

/-- The writes of the per-table loop of log_all_tables: the DDL files with
their final contents, in processing order, and the failure-log records
appended (table key together with the raw results dict). -/
structure CrawlOutcome where
  files : List (String × String)
  errEntries : List (String × CmdResult)
deriving DecidableEq, Repr

/-- The per-table loop of log_all_tables over the enumerated table names,
with ddl giving the results dict of the show-create-table submission for
each table. -/
def log_all_tables (export_dir ms_dir db_name : String)
    (ddl : String → CmdResult) : List String → CrawlOutcome
  | [] => ⟨[], []⟩
  | t :: ts =>
    let results := ddl t
    let rest := log_all_tables export_dir ms_dir db_name ddl ts
    { files := (table_file_path export_dir ms_dir db_name t,
        if results.resultType == "text" then results.data else "") :: rest.files,
      errEntries := (if results.resultType == "text" then []
        else [(db_name ++ "." ++ t, results)]) ++ rest.errEntries }

/-! ### Automated cluster filter (remove_automated_clusters, clusters.py)

The filter compiles the job-cluster regex job-\d+-run-\d+$ and, for each
cluster of the input list, writes the cluster record to skipped_clusters.log
when re.match succeeds on its name or the name starts with the literal
mlflow-model-, keeping it in the clean list otherwise.  The regex is applied
with re.match, so it is anchored at the start, and its final dollar anchors
the end (matching at the very end of the string or just before one trailing
newline, Python's dollar semantics without MULTILINE).
-/

/-- A cluster record: its cluster_name field and the rest of its
configuration, opaque to the filter. -/
structure Cluster where
  cluster_name : String
  config : List (String × String)
deriving DecidableEq, Repr

/-- Consume a literal piece of the pattern from the head of the subject,
returning the rest of the subject. -/
def strip_lit : List Char → List Char → Option (List Char)
  | [], s => some s
  | _ :: _, [] => none
  | p :: ps, c :: cs => if c = p then strip_lit ps cs else none

/-- Maximal run of decimal digits at the head of the subject (the greedy
regex one-or-more digit piece): the count consumed and the rest.  Taking
fewer digits can never help this pattern, because each digit piece is
followed by a non-digit requirement (a literal dash or the end anchor). -/
def munch_digits : List Char → Nat × List Char
  | [] => (0, [])
  | c :: cs =>
    if c.isDigit then
      let r := munch_digits cs
      (r.1 + 1, r.2)
    else (0, c :: cs)

/-- Python's end-of-string dollar anchor without MULTILINE: the remaining
subject is empty or a single trailing newline. -/
def dollar_end : List Char → Bool
  | [] => true
  | [c] => c == '\n'
  | _ :: _ :: _ => false

/-- The compiled job-cluster regex job-\d+-run-\d+$ applied with re.match
(anchored at the start of the name). -/
def job_run_match (name : String) : Bool :=
  match strip_lit ("job-".toList) name.toList with
  | none => false
  | some r1 =>
    let d1 := munch_digits r1
    if d1.1 == 0 then false
    else
      match strip_lit ("-run-".toList) d1.2 with
      | none => false
      | some r2 =>
        let d2 := munch_digits r2
        if d2.1 == 0 then false else dollar_end d2.2

/-- Model endpoint clusters start with this literal. -/
def ml_model_pattern : String := "mlflow-model-"

/-- Python str.startswith on the model-endpoint literal: the pattern is a
prefix of the name. -/
def starts_with_ml_model (cluster_name : String) : Bool :=
  (strip_lit ml_model_pattern.toList cluster_name.toList).isSome

/-- The exclusion test of remove_automated_clusters on one cluster name:
re.match of the job regex, or startswith on the model-endpoint literal. -/
def is_automated (cluster_name : String) : Bool :=
  job_run_match cluster_name || starts_with_ml_model cluster_name

/-- remove_automated_clusters: first component the returned
clean_cluster_list, second component the records written to
skipped_clusters.log, both in input order. -/
def remove_automated_clusters : List Cluster → List Cluster × List Cluster
  | [] => ([], [])
  | c :: cs =>
    let rest := remove_automated_clusters cs
    if is_automated c.cluster_name then (rest.1, c :: rest.2)
    else (c :: rest.1, rest.2)

/-! ### Metastore import (import_hive_metastore, create_database_db)

The import lists the local metastore directory and, for each entry, first
submits CREATE DATABASE IF NOT EXISTS for the entry's name
(create_database_db), and only then tests whether the entry is a directory:
for a directory every contained file is re-submitted as one table's stored
DDL; any other entry is logged as a structural error and the loop moves on
to the next entry.
-/

/-- One entry of the local metastore directory listing: its name, whether it
is a directory, and the files inside it (one per stored table DDL). -/
structure DbEntry where
  name : String
  isDir : Bool
  tables : List String
deriving DecidableEq, Repr

/-- The remote submissions and error reports of import_hive_metastore, in
processing order within each component: the database names for which a
CREATE DATABASE IF NOT EXISTS statement was submitted, the (database, file)
pairs whose stored DDL was re-submitted, and the names reported as
structural errors. -/
structure ImportOutcome where
  createdDbs : List String
  importedTables : List (String × String)
  structuralErrors : List String
deriving DecidableEq, Repr

/-- import_hive_metastore over the local metastore directory listing. -/
def import_hive_metastore : List DbEntry → ImportOutcome
  | [] => ⟨[], [], []⟩
  | e :: es =>
    let rest := import_hive_metastore es
    { createdDbs := e.name :: rest.createdDbs,
      importedTables :=
        (if e.isDir then e.tables.map (fun t => (e.name, t)) else [])
          ++ rest.importedTables,
      structuralErrors :=
        (if e.isDir then [] else [e.name]) ++ rest.structuralErrors }

/-! ### Retry-with-alternate-credentials controller
(retry_failed_metastore_export, hive.py)

The controller reads the failure-log lines into err_log_list once and then,
for each registered role, runs

  for table in err_log_list:
      ... submit show create table ...
      if results of type text: err_log_list.remove(table); write the file
      else: log the failure

Python iterator semantics for a list mutated by list.remove inside its own
for loop: the iterator keeps a position counter that advances every step
even when the element just handed out was removed, and removal shifts the
later elements one slot down, so the element directly after a removed one is
never handed out in that pass.  The loop below models exactly this: position
i is read, incremented, and on a text result list.remove drops the first
occurrence of the read value.  The fuel argument only bounds the number of
iterations so the model is structurally recursive; the entry point passes
the list length, which the position counter can never outrun.
-/

/-- The inner per-role loop of retry_failed_metastore_export: succ tells
whether the show-create-table submission for a failing entry returns a text
result under the current role.  Returns the mutated err_log_list and the
attempts made, in order, each with its outcome. -/
def retry_role_loop (succ : String → Bool) :
    Nat → List String → Nat → List (String × Bool) →
    List String × List (String × Bool)
  | 0, lst, _, attempts => (lst, attempts)
  | fuel + 1, lst, i, attempts =>
    if h : i < lst.length then
      if succ (lst.get ⟨i, h⟩) then
        retry_role_loop succ fuel (lst.erase (lst.get ⟨i, h⟩)) (i + 1)
          (attempts ++ [(lst.get ⟨i, h⟩, true)])
      else
        retry_role_loop succ fuel lst (i + 1)
          (attempts ++ [(lst.get ⟨i, h⟩, false)])
    else (lst, attempts)

/-- One role's pass over the current err_log_list. -/
def retry_one_role (succ : String → Bool) (lst : List String) :
    List String × List (String × Bool) :=
  retry_role_loop succ lst.length lst 0 []

/-- One recorded re-attempt: the role in use, the failing entry attempted,
and whether the submission returned a text result. -/
structure RoleAttempt where
  role : String
  table : String
  gotText : Bool
deriving DecidableEq, Repr

/-- The role loop of retry_failed_metastore_export: for each registered role
in listing order, reconfigure the cluster and run the inner pass over the
surviving err_log_list.  Returns the final err_log_list (rewritten to the
failure log at the end) and all attempts in order. -/
def retry_all_roles (succ : String → String → Bool) :
    List String → List String → List String × List RoleAttempt
  | [], lst => (lst, [])
  | r :: rs, lst =>
    let first := retry_one_role (succ r) lst
    let rest := retry_all_roles succ rs first.1
    (rest.1, first.2.map (fun a => ⟨r, a.1, a.2⟩) ++ rest.2)

/-- File and API touches of retry_failed_metastore_export, in program order
(cluster reconfiguration calls are not modelled as events; a retry attempt
is an attemptDdl event). -/
inductive RetryEvent
  | listInstanceProfilesApi
  | readFailureLogCount
  | readFailureLogEntries
  | attemptDdl (role table : String)
  | rewriteFailureLog (entries : List String)
deriving DecidableEq, Repr

/-- Outcome of one retry_failed_metastore_export call: the events performed
before returning or failing, and the uncaught error it ends with, if any. -/
structure RetryRun where
  events : List RetryEvent
  raisedError : Option String
deriving DecidableEq, Repr

/-- retry_failed_metastore_export: the local do_instance_profile_exist is
assigned only inside the is_aws() branch; get_num_of_lines then opens and
reads the failure log when the file exists (returning 0 without opening it
otherwise); the subsequent read of do_instance_profile_exist raises
UnboundLocalError when the variable was never assigned.  failed_log is the
failure-log file contents, none when the file does not exist; profiles_exist
is the check_if_instance_profiles_exists result; succ is the per-role
per-entry result oracle of the re-attempts. -/
def retry_failed_metastore_export (is_aws profiles_exist : Bool)
    (failed_log : Option (List String)) (roles : List String)
    (succ : String → String → Bool) : RetryRun :=
  let ev1 : List RetryEvent :=
    if is_aws then [RetryEvent.listInstanceProfilesApi] else []
  let dpe : Option Bool := if is_aws then some profiles_exist else none
  let ev2 : List RetryEvent := ev1 ++
    (match failed_log with
     | some _ => [RetryEvent.readFailureLogCount]
     | none => [])
  match dpe with
  | none => { events := ev2, raisedError := some "UnboundLocalError" }
  | some false => { events := ev2, raisedError := none }
  | some true =>
    match failed_log with
    | none => { events := ev2, raisedError := some "FileNotFoundError" }
    | some entries =>
      let res := retry_all_roles succ roles entries
      { events := ev2 ++ [RetryEvent.readFailureLogEntries] ++
          res.2.map (fun a => RetryEvent.attemptDdl a.role a.table) ++
          [RetryEvent.rewriteFailureLog res.1],
        raisedError := none }

end Migrate

namespace Migrate

/-! ## Theorems for claim C1 -/

/-- C1 counterexample: for a count of exactly 100 (one full batch) the code
issues 2 slice ranges, while ceil(100/100) = 1, so the pagination does not
consist of exactly ceil(N/B) ranges. -/
theorem c1_counterexample :
    (batch_slices 100).length = 2 ∧ (100 + batch_size - 1) / batch_size = 1 ∧
    (batch_slices 100).length ≠ (100 + batch_size - 1) / batch_size := by
  refine ⟨rfl, rfl, by decide⟩

/-- C1 amended: for every total count N and the fixed batch size B = 100 the
pagination produced by log_all_databases and log_all_tables consists of
exactly N/B + 1 (floor division) ranges of the form [B*m, B*(m+1)); they are
pairwise non-overlapping and together cover [0,N) with no gap, and their
number equals ceil(N/B) exactly when B does not divide N (when B divides N
one additional empty-slice range is issued). -/
theorem c1_amended (n : Nat) :
    (batch_slices n).length = n / batch_size + 1 ∧
    (∀ p ∈ batch_slices n, ∃ m, m < num_of_buckets n ∧
      p = (batch_size * m, batch_size * (m + 1))) ∧
    (∀ j, j < n → ∃ p ∈ batch_slices n, p.1 ≤ j ∧ j < p.2) ∧
    List.Pairwise (fun p q : Nat × Nat => p.2 ≤ q.1) (batch_slices n) ∧
    (n % batch_size ≠ 0 → n / batch_size + 1 = (n + batch_size - 1) / batch_size) := by
  refine ⟨by simp [batch_slices, num_of_buckets], ?_, ?_, ?_, ?_⟩
  · intro p hp
    simp only [batch_slices, List.mem_map, List.mem_range] at hp
    obtain ⟨m, hm, rfl⟩ := hp
    exact ⟨m, hm, rfl⟩
  · intro j hj
    refine ⟨slice_range (j / batch_size), ?_, ?_⟩
    · simp only [batch_slices, List.mem_map, List.mem_range]
      refine ⟨j / batch_size, ?_, rfl⟩
      have hdd : j / batch_size ≤ n / batch_size :=
        Nat.div_le_div_right (Nat.le_of_lt hj)
      simp only [num_of_buckets]
      omega
    · have hb : batch_size = 100 := rfl
      simp only [slice_range, hb]
      omega
  · have hpw : List.Pairwise (· < ·) (List.range (num_of_buckets n)) :=
      List.pairwise_lt_range _
    refine List.Pairwise.map slice_range ?_ hpw
    intro a b hab
    have hb : batch_size = 100 := rfl
    simp only [slice_range, hb]
    omega
  · intro hne
    have hb : batch_size = 100 := rfl
    rw [hb] at hne ⊢
    omega

/-- Witness for C1: the amended statement applied at the concrete count 150,
whose 150 % 100 ≠ 0 side condition is discharged concretely. -/
theorem c1_amended_witness :
    (batch_slices 150).length = 150 / batch_size + 1 ∧
    150 / batch_size + 1 = (150 + batch_size - 1) / batch_size :=
  ⟨(c1_amended 150).1, (c1_amended 150).2.2.2.2 (by decide)⟩

/-! ## Theorems for claim C3 -/

/-- C3 counterexample: with zero failed entries (condition (a) of the claim
false), an AWS deployment and retry not skipped, the source's condition still
triggers the retry pass, so the pass is not triggered "only when all three
conditions hold". -/
theorem c3_counterexample :
    export_retry_triggered false true 0 = true ∧ ¬ (0 < (0 : Nat)) := by
  decide

/-- C3 amended: the retry-with-alternate-credentials pass is triggered exactly
when the deployment is the credential-bearing (AWS) kind and the operator has
not opted out of retry; whether failed extractions exist is not consulted (the
trigger is independent of the failed-entry count). -/
theorem c3_amended (skip_failed is_aws : Bool) (n m : Nat) :
    (export_retry_triggered skip_failed is_aws n = true ↔
      is_aws = true ∧ skip_failed = false) ∧
    export_retry_triggered skip_failed is_aws n =
      export_retry_triggered skip_failed is_aws m := by
  cases skip_failed <;> cases is_aws <;> simp [export_retry_triggered]

/-! ## Theorems for claim C4 -/

/-- C4 counterexample: when the execute response carries no command id,
submit_command does not raise; it logs the error line and still polls the
status endpoint (here reaching a Finished text result). -/
theorem c4_counterexample :
    (submit_command none [⟨"Finished", ⟨"text", "ok", ""⟩⟩]).raisedException = false ∧
    (submit_command none [⟨"Finished", ⟨"text", "ok", ""⟩⟩]).polledStatus = true := by
  decide

/-- C4 amended: whenever the remote execute call returns no command
identifier, submit_command logs an error line and raises nothing; it falls
through and continues polling the status endpoint with the missing id. -/
theorem c4_amended (polls : List StatusResp) :
    (submit_command none polls).raisedException = false ∧
    (submit_command none polls).loggedMissingId = true ∧
    (submit_command none polls).polledStatus = true := by
  simp only [submit_command]
  cases first_terminal polls <;> simp

/-! ## Theorems for claim C9 -/

/-- C9: a table whose show-create-table extraction returns a non-text result
still gets its per-table DDL file created (truncated to empty content),
because the file is opened for writing before the result type is inspected;
the same table also gets a failure-log record. -/
theorem c9_failed_table_empty_file (export_dir ms_dir db_name : String)
    (ddl : String → CmdResult) (ts : List String) (t : String)
    (hmem : t ∈ ts) (hfail : (ddl t).resultType ≠ "text") :
    (table_file_path export_dir ms_dir db_name t, "")
        ∈ (log_all_tables export_dir ms_dir db_name ddl ts).files ∧
    (db_name ++ "." ++ t, ddl t)
        ∈ (log_all_tables export_dir ms_dir db_name ddl ts).errEntries := by
  induction ts with
  | nil => cases hmem
  | cons x xs ih =>
    rcases List.mem_cons.mp hmem with h | h
    · subst h
      have hb : ((ddl t).resultType == "text") = false :=
        beq_eq_false_iff_ne.mpr hfail
      exact ⟨by simp [log_all_tables, hb], by simp [log_all_tables, hb]⟩
    · obtain ⟨h1, h2⟩ := ih h
      exact ⟨List.mem_cons_of_mem _ h1, List.mem_append_right _ h2⟩

/-- Witness for C9 at a concrete failing table. -/
theorem c9_witness :
    "t1" ∈ ["t1"] ∧
    ((fun _ => (⟨"error", "", "boom"⟩ : CmdResult)) "t1").resultType ≠ "text" ∧
    ((table_file_path "e/" "metastore/" "db1" "t1", "")
        ∈ (log_all_tables "e/" "metastore/" "db1"
            (fun _ => (⟨"error", "", "boom"⟩ : CmdResult)) ["t1"]).files ∧
     ("db1" ++ "." ++ "t1", (fun _ => (⟨"error", "", "boom"⟩ : CmdResult)) "t1")
        ∈ (log_all_tables "e/" "metastore/" "db1"
            (fun _ => (⟨"error", "", "boom"⟩ : CmdResult)) ["t1"]).errEntries) :=
  ⟨by decide, by decide,
    c9_failed_table_empty_file "e/" "metastore/" "db1"
      (fun _ => (⟨"error", "", "boom"⟩ : CmdResult)) ["t1"] "t1"
      (by decide) (by decide)⟩

/-! ## Theorems for claim C8 -/

/-- Helper: the crawler writes exactly one DDL file per enumerated table,
whatever the per-table results are, so error results do not stop the crawl. -/
theorem log_all_tables_files_length (export_dir ms_dir db_name : String)
    (ddl : String → CmdResult) (ts : List String) :
    (log_all_tables export_dir ms_dir db_name ddl ts).files.length = ts.length := by
  induction ts with
  | nil => rfl
  | cons x xs ih => simp [log_all_tables, ih]

/-- C8: when polling reaches a terminal state whose results are tagged error,
submit_command logs the error summary and still returns the results dict to
its caller without raising; and the crawler processes every enumerated table
(one DDL file write per table) whatever the per-table results, so an error
result does not abort the enclosing crawl. -/
theorem c8_error_result_is_data (com_id : Option String) (polls : List StatusResp)
    (r : StatusResp) (hterm : first_terminal polls = some r)
    (herr : r.results.resultType = "error") :
    ((submit_command com_id polls).raisedException = false ∧
     (submit_command com_id polls).loggedErrorSummary = true ∧
     (submit_command com_id polls).returned = some r.results) ∧
    (∀ (export_dir ms_dir db_name : String) (ddl : String → CmdResult)
        (ts : List String),
      (log_all_tables export_dir ms_dir db_name ddl ts).files.length = ts.length) := by
  refine ⟨?_, fun a b c d e => log_all_tables_files_length a b c d e⟩
  simp [submit_command, hterm, herr]

/-- Witness for C8 at a concrete terminal error response. -/
theorem c8_witness :
    first_terminal [⟨"Finished", ⟨"error", "", "boom"⟩⟩] =
      some ⟨"Finished", ⟨"error", "", "boom"⟩⟩ ∧
    ((⟨"Finished", ⟨"error", "", "boom"⟩⟩ : StatusResp).results.resultType = "error") ∧
    (((submit_command (some "cmd-1") [⟨"Finished", ⟨"error", "", "boom"⟩⟩]).raisedException = false ∧
      (submit_command (some "cmd-1") [⟨"Finished", ⟨"error", "", "boom"⟩⟩]).loggedErrorSummary = true ∧
      (submit_command (some "cmd-1") [⟨"Finished", ⟨"error", "", "boom"⟩⟩]).returned =
        some (⟨"Finished", ⟨"error", "", "boom"⟩⟩ : StatusResp).results) ∧
     (∀ (export_dir ms_dir db_name : String) (ddl : String → CmdResult)
        (ts : List String),
      (log_all_tables export_dir ms_dir db_name ddl ts).files.length = ts.length)) :=
  ⟨by decide, rfl,
    c8_error_result_is_data (some "cmd-1") [⟨"Finished", ⟨"error", "", "boom"⟩⟩]
      ⟨"Finished", ⟨"error", "", "boom"⟩⟩ (by decide) rfl⟩

/-! ## Theorems for claim C7 -/

/-- C7: remove_automated_clusters keeps in the clean list exactly the
clusters whose name fails the automated test and writes to
skipped_clusters.log exactly those whose name passes it (the job regex
applied with re.match, or the mlflow-model- literal as a startswith test);
in particular job-482-run-17 and mlflow-model-prod are excluded while
job-482-run-17x is not (the dollar anchors the end of the name). -/
theorem c7_automated_cluster_filter (cl : List Cluster) :
    (remove_automated_clusters cl).1 =
      cl.filter (fun c => !is_automated c.cluster_name) ∧
    (remove_automated_clusters cl).2 =
      cl.filter (fun c => is_automated c.cluster_name) ∧
    is_automated "job-482-run-17" = true ∧
    is_automated "mlflow-model-prod" = true ∧
    is_automated "job-482-run-17x" = false := by
  have key : ∀ l : List Cluster,
      (remove_automated_clusters l).1 =
        l.filter (fun c => !is_automated c.cluster_name) ∧
      (remove_automated_clusters l).2 =
        l.filter (fun c => is_automated c.cluster_name) := by
    intro l
    induction l with
    | nil => exact ⟨rfl, rfl⟩
    | cons c cs ih =>
      cases h : is_automated c.cluster_name <;>
        simp [remove_automated_clusters, h, ih.1, ih.2, List.filter_cons]
  exact ⟨(key cl).1, (key cl).2, by decide, by decide, by decide⟩

/-! ## Theorems for claim C6 -/

/-- Helper: a CREATE DATABASE IF NOT EXISTS submission is issued for every
entry of the local metastore listing, in order. -/
theorem import_hive_metastore_createdDbs (l : List DbEntry) :
    (import_hive_metastore l).createdDbs = l.map (fun d => d.name) := by
  induction l with
  | nil => rfl
  | cons e es ih => simp [import_hive_metastore, ih]

/-- Helper: import_hive_metastore processes a concatenation of listings
componentwise. -/
theorem import_hive_metastore_append (l r : List DbEntry) :
    (import_hive_metastore (l ++ r)).createdDbs =
      (import_hive_metastore l).createdDbs
        ++ (import_hive_metastore r).createdDbs ∧
    (import_hive_metastore (l ++ r)).importedTables =
      (import_hive_metastore l).importedTables
        ++ (import_hive_metastore r).importedTables ∧
    (import_hive_metastore (l ++ r)).structuralErrors =
      (import_hive_metastore l).structuralErrors
        ++ (import_hive_metastore r).structuralErrors := by
  induction l with
  | nil => simp [import_hive_metastore]
  | cons e es ih => simp [import_hive_metastore, ih.1, ih.2.1, ih.2.2]

/-- C6 counterexample: a database-level entry that is not a directory still
gets a CREATE DATABASE IF NOT EXISTS submission, because create_database_db
is called before the directory test. -/
theorem c6_counterexample :
    (import_hive_metastore [⟨"stray.txt", false, []⟩]).createdDbs = ["stray.txt"] ∧
    (⟨"stray.txt", false, []⟩ : DbEntry).isDir = false := by
  decide

/-- C6 amended: import_hive_metastore issues a remote CREATE DATABASE IF NOT
EXISTS for every entry of the local metastore directory, directory or not; an
entry at the database level that is not a directory is reported as a
structural error, contributes no imported table, and does not abort
the import of the remaining entries (the imported tables are exactly those
of the listing with the entry removed). -/
theorem c6_amended (pre post : List DbEntry) (e : DbEntry)
    (hnd : e.isDir = false) :
    (import_hive_metastore (pre ++ e :: post)).createdDbs =
      (pre ++ e :: post).map (fun d => d.name) ∧
    e.name ∈ (import_hive_metastore (pre ++ e :: post)).structuralErrors ∧
    (import_hive_metastore (pre ++ e :: post)).importedTables =
      (import_hive_metastore (pre ++ post)).importedTables := by
  refine ⟨import_hive_metastore_createdDbs _, ?_, ?_⟩
  · rw [(import_hive_metastore_append pre (e :: post)).2.2]
    refine List.mem_append_right _ ?_
    simp [import_hive_metastore, hnd]
  · rw [(import_hive_metastore_append pre (e :: post)).2.1,
      (import_hive_metastore_append pre post).2.1]
    simp [import_hive_metastore, hnd]

/-- Witness for C6 at a concrete listing holding a stray non-directory entry
between two database directories. -/
theorem c6_witness :
    (⟨"junk", false, []⟩ : DbEntry).isDir = false ∧
    ((import_hive_metastore
        ([⟨"db1", true, ["t1"]⟩] ++ ⟨"junk", false, []⟩ :: [⟨"db2", true, ["t2"]⟩])).createdDbs =
      (([⟨"db1", true, ["t1"]⟩] ++ ⟨"junk", false, []⟩ :: [⟨"db2", true, ["t2"]⟩] :
        List DbEntry)).map (fun d => d.name) ∧
     "junk" ∈ (import_hive_metastore
        ([⟨"db1", true, ["t1"]⟩] ++ ⟨"junk", false, []⟩ :: [⟨"db2", true, ["t2"]⟩])).structuralErrors ∧
     (import_hive_metastore
        ([⟨"db1", true, ["t1"]⟩] ++ ⟨"junk", false, []⟩ :: [⟨"db2", true, ["t2"]⟩])).importedTables =
      (import_hive_metastore
        ([⟨"db1", true, ["t1"]⟩] ++ [⟨"db2", true, ["t2"]⟩])).importedTables) :=
  ⟨rfl, c6_amended [⟨"db1", true, ["t1"]⟩] [⟨"db2", true, ["t2"]⟩]
    ⟨"junk", false, []⟩ rfl⟩

/-! ## Helper lemmas about the retry loops -/

/-- Helper: the inner loop only ever appends to the attempt record. -/
theorem retry_role_loop_attempts_mono (succ : String → Bool) (fuel : Nat) :
    ∀ (lst : List String) (i : Nat) (att : List (String × Bool))
      (a : String × Bool), a ∈ att → a ∈ (retry_role_loop succ fuel lst i att).2 := by
  induction fuel with
  | zero => intro lst i att a ha; exact ha
  | succ fuel ih =>
    intro lst i att a ha
    by_cases h : i < lst.length
    · by_cases hs : succ (lst.get ⟨i, h⟩) = true
      · simp only [retry_role_loop, dif_pos h, if_pos hs]
        exact ih _ _ _ a (List.mem_append_left _ ha)
      · simp only [retry_role_loop, dif_pos h, if_neg hs]
        exact ih _ _ _ a (List.mem_append_left _ ha)
    · simp only [retry_role_loop, dif_neg h]
      exact ha

/-- Helper: the surviving err_log_list only loses elements. -/
theorem retry_role_loop_list_subset (succ : String → Bool) (fuel : Nat) :
    ∀ (lst : List String) (i : Nat) (att : List (String × Bool)) (t : String),
      t ∈ (retry_role_loop succ fuel lst i att).1 → t ∈ lst := by
  induction fuel with
  | zero => intro lst i att t ht; exact ht
  | succ fuel ih =>
    intro lst i att t ht
    by_cases h : i < lst.length
    · by_cases hs : succ (lst.get ⟨i, h⟩) = true
      · simp only [retry_role_loop, dif_pos h, if_pos hs] at ht
        exact List.mem_of_mem_erase (ih _ _ _ t ht)
      · simp only [retry_role_loop, dif_pos h, if_neg hs] at ht
        exact ih _ _ _ t ht
    · simp only [retry_role_loop, dif_neg h] at ht
      exact ht

/-- Helper: the inner loop preserves distinctness of the failing entries. -/
theorem retry_role_loop_nodup (succ : String → Bool) (fuel : Nat) :
    ∀ (lst : List String) (i : Nat) (att : List (String × Bool)),
      lst.Nodup → (retry_role_loop succ fuel lst i att).1.Nodup := by
  induction fuel with
  | zero => intro lst i att h; exact h
  | succ fuel ih =>
    intro lst i att hnd
    by_cases h : i < lst.length
    · by_cases hs : succ (lst.get ⟨i, h⟩) = true
      · simp only [retry_role_loop, dif_pos h, if_pos hs]
        exact ih _ _ _ (hnd.erase _)
      · simp only [retry_role_loop, dif_pos h, if_neg hs]
        exact ih _ _ _ hnd
    · simp only [retry_role_loop, dif_neg h]
      exact hnd

/-- Helper: an entry of the list can only disappear from the surviving list
through an attempt on it that returned a text result. -/
theorem retry_role_loop_complete (succ : String → Bool) (fuel : Nat) :
    ∀ (lst : List String) (i : Nat) (att : List (String × Bool)) (t : String),
      t ∈ lst → (t, true) ∉ (retry_role_loop succ fuel lst i att).2 →
      t ∈ (retry_role_loop succ fuel lst i att).1 := by
  induction fuel with
  | zero => intro lst i att t ht _; exact ht
  | succ fuel ih =>
    intro lst i att t ht hna
    by_cases h : i < lst.length
    · by_cases hs : succ (lst.get ⟨i, h⟩) = true
      · simp only [retry_role_loop, dif_pos h, if_pos hs] at hna ⊢
        by_cases he : lst.get ⟨i, h⟩ = t
        · exfalso
          apply hna
          apply retry_role_loop_attempts_mono
          refine List.mem_append_right _ ?_
          rw [he]
          exact List.mem_singleton_self _
        · refine ih _ _ _ t ?_ hna
          exact (List.mem_erase_of_ne (fun hh => he hh.symm)).mpr ht
      · simp only [retry_role_loop, dif_pos h, if_neg hs] at hna ⊢
        exact ih _ _ _ t ht hna
    · simp only [retry_role_loop, dif_neg h] at hna ⊢
      exact ht

/-- Helper: under distinct entries, an entry that survives the pass never had
an attempt returning a text result during the pass. -/
theorem retry_role_loop_sound (succ : String → Bool) (fuel : Nat) :
    ∀ (lst : List String) (i : Nat) (att : List (String × Bool)) (t : String),
      lst.Nodup →
      t ∈ (retry_role_loop succ fuel lst i att).1 →
      (∀ p ∈ att, p.1 = t → p.2 = false) →
      ∀ p ∈ (retry_role_loop succ fuel lst i att).2, p.1 = t → p.2 = false := by
  induction fuel with
  | zero => intro lst i att t _ _ hatt; exact hatt
  | succ fuel ih =>
    intro lst i att t hnd hmem hatt
    by_cases h : i < lst.length
    · by_cases hs : succ (lst.get ⟨i, h⟩) = true
      · simp only [retry_role_loop, dif_pos h, if_pos hs] at hmem ⊢
        by_cases he : lst.get ⟨i, h⟩ = t
        · exfalso
          have hsub := retry_role_loop_list_subset succ fuel _ _ _ t hmem
          rw [he] at hsub
          exact ((List.Nodup.mem_erase_iff hnd).mp hsub).1 rfl
        · refine ih _ _ _ t (hnd.erase _) hmem ?_
          intro p hp hp1
          rcases List.mem_append.mp hp with hp | hp
          · exact hatt p hp hp1
          · have hpe : p = (lst.get ⟨i, h⟩, true) := by simpa using hp
            rw [hpe] at hp1
            exact absurd hp1 he
      · simp only [retry_role_loop, dif_pos h, if_neg hs] at hmem ⊢
        refine ih _ _ _ t hnd hmem ?_
        intro p hp hp1
        rcases List.mem_append.mp hp with hp | hp
        · exact hatt p hp hp1
        · have hpe : p = (lst.get ⟨i, h⟩, false) := by simpa using hp
          rw [hpe]
    · simp only [retry_role_loop, dif_neg h] at hmem ⊢
      exact hatt

/-- Helper: across all roles, a final entry was an initial entry. -/
theorem retry_all_roles_list_subset (succ : String → String → Bool) :
    ∀ (roles lst : List String) (t : String),
      t ∈ (retry_all_roles succ roles lst).1 → t ∈ lst := by
  intro roles
  induction roles with
  | nil => intro lst t ht; exact ht
  | cons r rs ih =>
    intro lst t ht
    exact retry_role_loop_list_subset (succ r) lst.length lst 0 [] t
      (ih (retry_one_role (succ r) lst).1 t ht)

/-- Helper: across all roles, distinctness of the failing entries is kept. -/
theorem retry_all_roles_nodup (succ : String → String → Bool) :
    ∀ (roles lst : List String), lst.Nodup →
      (retry_all_roles succ roles lst).1.Nodup := by
  intro roles
  induction roles with
  | nil => intro lst h; exact h
  | cons r rs ih =>
    intro lst h
    exact ih (retry_one_role (succ r) lst).1
      (retry_role_loop_nodup (succ r) lst.length lst 0 [] h)

/-- Helper: an initial entry missing from the final list had some role's
attempt on it return a text result. -/
theorem retry_all_roles_complete (succ : String → String → Bool) :
    ∀ (roles lst : List String) (t : String),
      t ∈ lst → t ∉ (retry_all_roles succ roles lst).1 →
      ∃ a ∈ (retry_all_roles succ roles lst).2,
        a.table = t ∧ a.gotText = true := by
  intro roles
  induction roles with
  | nil => intro lst t ht hout; exact absurd ht hout
  | cons r rs ih =>
    intro lst t ht hout
    by_cases hfirst : (t, true) ∈ (retry_one_role (succ r) lst).2
    · refine ⟨⟨r, t, true⟩, ?_, rfl, rfl⟩
      show ((⟨r, t, true⟩ : RoleAttempt) ∈
        (retry_one_role (succ r) lst).2.map
          (fun a => (⟨r, a.1, a.2⟩ : RoleAttempt)) ++
        (retry_all_roles succ rs (retry_one_role (succ r) lst).1).2)
      exact List.mem_append_left _ (List.mem_map.mpr ⟨(t, true), hfirst, rfl⟩)
    · have hin : t ∈ (retry_one_role (succ r) lst).1 :=
        retry_role_loop_complete (succ r) lst.length lst 0 [] t ht hfirst
      obtain ⟨a, ha, h1, h2⟩ := ih _ t hin hout
      exact ⟨a, List.mem_append_right _ ha, h1, h2⟩

/-- Helper: under distinct initial entries, a final entry never had any
role's attempt on it return a text result. -/
theorem retry_all_roles_sound (succ : String → String → Bool) :
    ∀ (roles lst : List String) (t : String),
      lst.Nodup → t ∈ (retry_all_roles succ roles lst).1 →
      ∀ a ∈ (retry_all_roles succ roles lst).2,
        a.table = t → a.gotText = false := by
  intro roles
  induction roles with
  | nil => intro lst t _ _ a ha; exact absurd ha (List.not_mem_nil a)
  | cons r rs ih =>
    intro lst t hnd hmem a ha hat
    have hin1 : t ∈ (retry_one_role (succ r) lst).1 :=
      retry_all_roles_list_subset succ rs _ t hmem
    rcases List.mem_append.mp ha with ha | ha
    · obtain ⟨p, hp, rfl⟩ := List.mem_map.mp ha
      exact retry_role_loop_sound (succ r) lst.length lst 0 [] t hnd hin1
        (fun q hq _ => absurd hq (List.not_mem_nil q)) p hp hat
    · exact ih _ t (retry_role_loop_nodup (succ r) lst.length lst 0 [] hnd)
        hmem a ha hat

/-! ## Theorems for claim C5 -/

/-- C5: starting from a failure log with distinct table records, after the
retry pass every record in the rewritten (final) list was in the pre-retry
list and no tried role's attempt on it returned a text result; and every
record absent from the final list was either absent before the pass or had
some role's attempt on it return a text result. -/
theorem c5_failure_log_invariant (succ : String → String → Bool)
    (roles : List String) (init : List String) (hnd : init.Nodup)
    (t : String) :
    (t ∈ (retry_all_roles succ roles init).1 →
      t ∈ init ∧
      ∀ a ∈ (retry_all_roles succ roles init).2,
        a.table = t → a.gotText = false) ∧
    (t ∉ (retry_all_roles succ roles init).1 →
      t ∉ init ∨ ∃ a ∈ (retry_all_roles succ roles init).2,
        a.table = t ∧ a.gotText = true) := by
  constructor
  · intro hmem
    exact ⟨retry_all_roles_list_subset succ roles init t hmem,
      retry_all_roles_sound succ roles init t hnd hmem⟩
  · intro hout
    by_cases hin : t ∈ init
    · exact Or.inr (retry_all_roles_complete succ roles init t hin hout)
    · exact Or.inl hin

/-- Witness for C5 at a concrete two-entry failure log and one role. -/
theorem c5_witness :
    (["db.a", "db.b"] : List String).Nodup ∧
    (("db.b" ∈ (retry_all_roles (fun _ t => t == "db.a") ["r1"]
        ["db.a", "db.b"]).1 →
      "db.b" ∈ (["db.a", "db.b"] : List String) ∧
      ∀ a ∈ (retry_all_roles (fun _ t => t == "db.a") ["r1"]
          ["db.a", "db.b"]).2,
        a.table = "db.b" → a.gotText = false) ∧
     ("db.b" ∉ (retry_all_roles (fun _ t => t == "db.a") ["r1"]
        ["db.a", "db.b"]).1 →
      "db.b" ∉ (["db.a", "db.b"] : List String) ∨
      ∃ a ∈ (retry_all_roles (fun _ t => t == "db.a") ["r1"]
          ["db.a", "db.b"]).2,
        a.table = "db.b" ∧ a.gotText = true)) :=
  ⟨by decide, c5_failure_log_invariant (fun _ t => t == "db.a") ["r1"]
    ["db.a", "db.b"] (by decide) "db.b"⟩

/-! ## Theorems for claim C2 -/

/-- C2 failing input: failing list [db.t1, db.t2] and one registered role
whose attempt on db.t1 returns a text result.  Because the source removes
db.t1 from err_log_list while iterating over that same list, the iterator
skips db.t2: the pass makes exactly one attempt (on db.t1), and db.t2 —
still present in the failing list throughout — is never re-attempted with
the role, contradicting the claim that every still-failing table is
re-attempted with each role. -/
theorem c2_skipped_table_evidence :
    retry_all_roles (fun _ t => t == "db.t1") ["roleA"] ["db.t1", "db.t2"] =
      (["db.t2"], [⟨"roleA", "db.t1", true⟩]) ∧
    "db.t2" ∈ (["db.t1", "db.t2"] : List String) ∧
    (∀ a ∈ (retry_all_roles (fun _ t => t == "db.t1") ["roleA"]
        ["db.t1", "db.t2"]).2,
      a.table ≠ "db.t2") := by
  decide

/-! ## Theorems for claim C10 -/

/-- C10 counterexample: with a non-AWS deployment and an existing one-line
failure log, the call does raise UnboundLocalError, but only after
get_num_of_lines has already opened and read the failure log to count its
lines — so it does not fail before reading the failure log. -/
theorem c10_counterexample :
    (retry_failed_metastore_export false true (some ["entry1"]) []
      (fun _ _ => false)).raisedError = some "UnboundLocalError" ∧
    RetryEvent.readFailureLogCount ∈
      (retry_failed_metastore_export false true (some ["entry1"]) []
        (fun _ _ => false)).events := by
  decide

/-- C10 amended: when is_aws() is false, the branch reading
do_instance_profile_exist references a local variable that was never
assigned, so the call raises UnboundLocalError before loading the failure
log's entries for retry and before attempting any re-extraction — though
after get_num_of_lines has counted (opened and read) the failure log when
the file exists. -/
theorem c10_amended (profiles_exist : Bool) (failed_log : Option (List String))
    (roles : List String) (succ : String → String → Bool) :
    (retry_failed_metastore_export false profiles_exist failed_log roles
      succ).raisedError = some "UnboundLocalError" ∧
    RetryEvent.readFailureLogEntries ∉
      (retry_failed_metastore_export false profiles_exist failed_log roles
        succ).events ∧
    ∀ r t, RetryEvent.attemptDdl r t ∉
      (retry_failed_metastore_export false profiles_exist failed_log roles
        succ).events := by
  cases failed_log <;> simp [retry_failed_metastore_export]

end Migrate
